import Mathlib

/-!
Verification of the remote-asset import flow and material tool of the
Unity MCP server (files src/Python/tools/asset_tools.py and
src/Python/tools/material_tools.py), as a shallow embedding in Lean.

The embedding models the Python value domain (for arguments whose runtime
type matters), the local filesystem touched by the importer (files,
directories, a counter for fresh temporary-directory names), the external
collaborators (the Unity connection and the HTTP fetch) as an oracle
structure, and each operation as a pure function returning its result, the
final filesystem state and the ordered trace of collaborator effects.
Exceptions are modelled with Except: a value of the form Except.error m is
a raised Python exception carrying message m, and try/except blocks are
explicit matches on it.
-/

/-! ## Python value domain -/

/-- Python values, as far as the tools inspect them: strings, numbers
(int and float are conflated into one rational-valued constructor, since
the code only compares and reformats them), booleans, None, and lists. -/
inductive PyVal where
  | str (s : String)
  | num (q : ℚ)
  | bool (b : Bool)
  | none
  | list (xs : List PyVal)

/-- Python truthiness, restricted to the modelled values. -/
def pyTruthy : PyVal → Bool
  | .str s => s != ""
  | .num q => q != 0
  | .bool b => b
  | .none => false
  | .list xs => !xs.isEmpty

/-- isinstance(v, str). -/
def pyIsStr : PyVal → Bool
  | .str _ => true
  | _ => false

/-- The underlying string of a string value (defaulting to "" elsewhere;
only applied after an isinstance check). -/
def pyAsStr : PyVal → String
  | .str s => s
  | _ => ""

/-- The Python type name, used in TypeError / AttributeError messages. -/
def pyTypeName : PyVal → String
  | .str _ => "str"
  | .num q => if q.den = 1 then "int" else "float"
  | .bool _ => "bool"
  | .none => "NoneType"
  | .list _ => "list"

mutual

/-- str(v): how a value is rendered inside an f-string. Numeric
formatting is modelled with the toString of the rational value, which
agrees with Python for integers; the claims never depend on it. -/
def pyRepr : PyVal → String
  | .str s => s
  | .num q => if q.den = 1 then toString q.num else toString q
  | .bool b => if b then "True" else "False"
  | .none => "None"
  | .list xs => "[" ++ pyReprList xs ++ "]"

/-- repr of list elements, comma separated. -/
def pyReprList : List PyVal → String
  | [] => ""
  | [v] => pyReprAtom v
  | v :: rest => pyReprAtom v ++ ", " ++ pyReprList rest

/-- repr(v): like str(v) but strings are quoted. -/
def pyReprAtom : PyVal → String
  | .str s => "\x27" ++ s ++ "\x27"
  | v => pyRepr v

end

/-! ## String helpers translated from the Python expressions -/

/-- s.split(sep char)[0], i.e. the prefix before the first occurrence. -/
def beforeFirst (c : Char) (l : List Char) : List Char :=
  l.takeWhile (fun a => a != c)

/-- s.split(sep char)[-1], i.e. the suffix after the last occurrence
(the whole string when the separator does not occur). -/
def afterLast (c : Char) (l : List Char) : List Char :=
  (l.reverse.takeWhile (fun a => a != c)).reverse

/-- url.split(\x27/\x27)[-1].split(\x27?\x27)[0]: the download filename
computed by import_remote_asset and batch_import_remote_assets (lines 351,
359 and 418 of asset_tools.py). -/
def filenameFromUrl (url : String) : String :=
  String.mk (beforeFirst '?' (afterLast '/' url.toList))

/-- The filename described by the spec sentence: the last path segment of
the URL taken before any question mark in the URL. Modelled from the
spec for comparison with filenameFromUrl. -/
def specFilename (url : String) : String :=
  String.mk (afterLast '/' (beforeFirst '?' url.toList))

/-- str.startswith, translated to a prefix test on the character list. -/
def pyStartsWith (s p : String) : Bool :=
  p.toList.isPrefixOf s.toList

/-- The head part of os.path.dirname: everything up to and including the
final slash. -/
def dirnameHead (p : String) : List Char :=
  (p.toList.reverse.dropWhile (fun a => a != '/')).reverse

/-- os.path.dirname for POSIX paths: everything before the final slash,
with trailing slashes stripped unless the head is all slashes. -/
def dirname (p : String) : String :=
  if (dirnameHead p).isEmpty || (dirnameHead p).all (fun a => a == '/') then
    String.mk (dirnameHead p)
  else String.mk (((dirnameHead p).reverse.dropWhile (fun a => a == '/')).reverse)

/-- Python \x27/\x27.join(path.split(\x27/\x27)[:-1]) used for the target
directory (line 333 of asset_tools.py). -/
def dirOfTarget (t : String) : String :=
  String.intercalate "/" (t.splitOn "/").dropLast

/-- Python path.split(\x27/\x27)[-1] used for the target filename
(line 334 of asset_tools.py). -/
def fileOfTarget (t : String) : String :=
  (t.splitOn "/").getLastD ""

/-- Lines 329-330 of asset_tools.py: prefix the target path with
"Assets/" unless it already starts with it. -/
def normalizeTarget (t : String) : String :=
  if pyStartsWith t "Assets/" then t else "Assets/" ++ t

/-! ## Filesystem state and collaborator oracle -/

/-- The local filesystem as the importer sees it: regular files with
their byte content, existing directories, and a counter that feeds fresh
names to tempfile.mkdtemp. -/
structure St where
  files : List (String × List Nat)
  dirs : List String
  tempCounter : Nat
deriving DecidableEq

/-- os.makedirs(d, exist_ok := True): idempotent creation. -/
def mkdirs (st : St) (d : String) : St :=
  if d ∈ st.dirs then st else { st with dirs := d :: st.dirs }

/-- Create or truncate a file with the given content (open(p, "wb")). -/
def writeFile (st : St) (p : String) (content : List Nat) : St :=
  { st with files := (p, content) :: st.files.filter (fun f => f.1 != p) }

/-- os.path.exists restricted to regular files. -/
def existsFile (st : St) (p : String) : Bool :=
  st.files.any (fun f => f.1 == p)

/-- os.remove. -/
def removeFile (st : St) (p : String) : St :=
  { st with files := st.files.filter (fun f => f.1 != p) }

/-- Whether a directory is empty: no file and no other directory lies
strictly below it. -/
def dirEmpty (st : St) (d : String) : Bool :=
  st.files.all (fun f => !pyStartsWith f.1 (d ++ "/")) &&
    st.dirs.all (fun e => !pyStartsWith e (d ++ "/"))

/-- os.rmdir semantics used by the cleanup step. -/
def removeDir (st : St) (d : String) : St :=
  { st with dirs := st.dirs.filter (fun e => e != d) }

/-- An asset entry of a GET_ASSET_LIST response. -/
structure Asset where
  path : String
  name : String
deriving DecidableEq

/-- A mutating-command response from the Unity collaborator. -/
structure Resp where
  success : Bool
  message : Option String
  error : Option String
deriving DecidableEq

/-- A SET_MATERIAL response. -/
structure MatResp where
  material_name : Option String
  path : Option String
deriving DecidableEq

/-- The download behaviour of one HTTP GET: full success, failure in the
middle of the stream after some chunks were written, failure before the
local file was opened (non-2xx status or connection error), or a
successful transfer whose file an external party removes before the
tool looks at it again (the filesystem race the post-download
existence check defends against). -/
inductive Dl where
  | ok (chunks : List (List Nat))
  | midFail (written : List (List Nat))
  | statusFail
  | okGone (chunks : List (List Nat))
deriving DecidableEq

/-- One observable collaborator effect: a command sent over the Unity
connection, or an HTTP GET. -/
inductive Eff where
  | send (name : String) (params : List (String × PyVal))
  | httpGet (url : String)

/-- Whether a trace contains a send of the named command. -/
def sentCmd (tr : List Eff) (c : String) : Bool :=
  tr.any fun e => match e with
    | .send n _ => n == c
    | _ => false

/-- Whether a trace element is an HTTP GET. -/
def isHttpGet : Eff → Bool
  | .httpGet _ => true
  | _ => false

/-- Number of HTTP requests in a trace. -/
def httpCount (tr : List Eff) : Nat :=
  (tr.filter isHttpGet).length

/-- The external world: connection availability, the collaborator
responses keyed by the sent parameters, the HTTP outcome per URL and
local path, the fresh names handed out by mkdtemp, which cleanup calls
fail, and the expansion of the user home directory. An Except.error
result models the call raising an exception with that message. -/
structure Env where
  connOk : Bool
  connErr : String
  assetList : List (String × PyVal) → Except String (List Asset)
  importAsset : String → String → Bool → Except String Resp
  dl : String → String → Dl
  tempName : Nat → String
  removeFails : String → Bool
  rmdirFails : String → Bool
  home : String
  findObjects : String → Except String (List String)
  setMaterialResp : List (String × PyVal) → Except String MatResp

/-! ## download_file (asset_tools.py lines 269-293) -/

/-- download_file(url, target_path): ensure the parent directory exists,
stream the URL to the local path, and report success as a boolean; every
exception is caught and converted to False (line 291-293). A failure
before the file is opened leaves nothing behind; a mid-transfer failure
leaves the partially written chunks at the target path. -/
def download_file (env : Env) (st : St) (url target_path : String) :
    Bool × St × List Eff :=
  let st := mkdirs st (dirname target_path)
  match env.dl url target_path with
  | .statusFail => (false, st, [Eff.httpGet url])
  | .midFail written =>
      (false, writeFile st target_path written.flatten, [Eff.httpGet url])
  | .ok chunks =>
      (true, writeFile st target_path chunks.flatten, [Eff.httpGet url])
  | .okGone chunks =>
      (true, removeFile (writeFile st target_path chunks.flatten) target_path,
        [Eff.httpGet url])

/-! ## import_remote_asset (asset_tools.py lines 298-391) -/

/-- The GET_ASSET_LIST parameters built on lines 336-339 from the
normalized target path. -/
def listParamsOf (t : String) : List (String × PyVal) :=
  [("search_pattern", PyVal.str (fileOfTarget t)),
   ("folder", PyVal.str (if dirOfTarget t != "" then dirOfTarget t else "Assets"))]

/-- The IMPORT_ASSET parameters built on lines 372-376. -/
def importParamsOf (dp t : String) (ov : Bool) : List (String × PyVal) :=
  [("source_path", PyVal.str dp), ("target_path", PyVal.str t),
   ("overwrite", PyVal.bool ov)]

/-- Line 344: the already-exists message. -/
def alreadyMsg (t : String) : String :=
  "資源已存在於\x27" ++ t ++ "\x27。使用overwrite=True來替換它。"

/-- Lines 379-384: try os.remove(download_path); os.rmdir(temp_dir)
except: pass. If the removal of the file raises (file absent or the
oracle says it fails), the rmdir is never reached; a failing or
non-empty-directory rmdir leaves the directory in place; every error is
swallowed. -/
def cleanupTemp (env : Env) (st : St) (dp td : String) : St :=
  if existsFile st dp && !env.removeFails dp then
    let st := removeFile st dp
    if st.dirs.contains td && dirEmpty st td && !env.rmdirFails td then
      removeDir st td
    else st
  else st

/-- Lines 362-389, from the download call to the returned message: check
the download outcome, defensively re-check that the file exists, send
IMPORT_ASSET, clean the temporary directory when one was used, and build
the final message. tempDir is some td exactly when temp_download was
true. -/
def importStepAfterDl (env : Env) (st : St) (u t dp : String) (ov : Bool)
    (tempDir : Option String) (dlOk : Bool) :
    Except String String × St × List Eff :=
  if !dlOk then (.ok ("從URL下載資源失敗: " ++ u), st, [])
  else if !existsFile st dp then
    (.ok ("下載似乎成功，但找不到文件: " ++ dp), st, [])
  else
    let ps := importParamsOf dp t ov
    match env.importAsset dp t ov with
    | .error e => (.error e, st, [Eff.send "IMPORT_ASSET" ps])
    | .ok resp =>
        let st := match tempDir with
          | some td => cleanupTemp env st dp td
          | Option.none => st
        if !resp.success then
          let err := resp.error.getD "未知錯誤"
          (.ok ("導入資源時發生錯誤: " ++ err ++ " (URL: " ++ u ++ ", 目標: "
              ++ t ++ ")"), st, [Eff.send "IMPORT_ASSET" ps])
        else
          (.ok (resp.message.getD ("資源成功從" ++ u ++ "導入到" ++ t)), st,
            [Eff.send "IMPORT_ASSET" ps])

/-- tempfile.mkdtemp on line 349: a fresh directory name from the
counter, recorded as existing. -/
def tempStepSt (env : Env) (st : St) : St :=
  { st with
    dirs := env.tempName st.tempCounter :: st.dirs
    tempCounter := st.tempCounter + 1 }

/-- The download-then-import tail shared by both storage modes: run
download_file on the resolved path and continue with importStepAfterDl,
concatenating the traces. -/
def importStepWith (env : Env) (st : St) (u t : String) (ov : Bool)
    (topt : Option String) (dp : String) : Except String String × St × List Eff :=
  let r1 := download_file env st u dp
  let r2 := importStepAfterDl env r1.2.1 u t dp ov topt r1.1
  (r2.1, r2.2.1, r1.2.2 ++ r2.2.2)

/-- Lines 346-389: resolve the download directory (a fresh temporary
directory from mkdtemp, or the persistent cache directory under the
user home created with exist_ok), derive the local filename from the
URL (os.path.join modelled as slash concatenation), download, and
continue with importStepAfterDl. -/
def importStepDl (env : Env) (st : St) (u t : String) (ov td : Bool) :
    Except String String × St × List Eff :=
  if td then
    importStepWith env (tempStepSt env st) u t ov (some (env.tempName st.tempCounter))
      (env.tempName st.tempCounter ++ "/" ++ filenameFromUrl u)
  else
    importStepWith env (mkdirs st (env.home ++ "/.unity_mcp_downloads")) u t ov
      Option.none (env.home ++ "/.unity_mcp_downloads" ++ "/" ++ filenameFromUrl u)

/-- Lines 318-389, the body of the try block: obtain the connection,
validate the two string arguments, normalize the target path, query
GET_ASSET_LIST, stop early when the asset already exists without
overwrite, otherwise download and import. -/
def importRemoteAssetRun (env : Env) (st : St) (url target_path : PyVal)
    (ov td : Bool) : Except String String × St × List Eff :=
  if !env.connOk then (.error env.connErr, st, [])
  else if !(pyTruthy url && pyIsStr url) then
    (.ok "錯誤: URL必須是有效的字符串", st, [])
  else if !(pyTruthy target_path && pyIsStr target_path) then
    (.ok "錯誤: 目標路徑必須是有效的字符串", st, [])
  else
    let u := pyAsStr url
    let t := normalizeTarget (pyAsStr target_path)
    let ps := listParamsOf t
    match env.assetList ps with
    | .error e => (.error e, st, [Eff.send "GET_ASSET_LIST" ps])
    | .ok assets =>
        if assets.any (fun a => a.path == t) && !ov then
          (.ok (alreadyMsg t), st, [Eff.send "GET_ASSET_LIST" ps])
        else
          let r := importStepDl env st u t ov td
          (r.1, r.2.1, Eff.send "GET_ASSET_LIST" ps :: r.2.2)

/-- import_remote_asset: the body wrapped in the try/except of lines
318/390-391, which converts any raised exception into an error string.
The first component is Except.ok whenever the operation returns (never
raises) to its caller. -/
def import_remote_asset (env : Env) (st : St) (url target_path : PyVal)
    (ov td : Bool) : Except String String × St × List Eff :=
  match importRemoteAssetRun env st url target_path ov td with
  | (.error e, st, tr) => (.ok ("導入遠程資源時發生錯誤: " ++ e), st, tr)
  | r => r

/-! ## batch_import_remote_assets (asset_tools.py lines 393-433) -/

/-- The str(e) of the AttributeError raised by url.split when a list
element is not a string. -/
def attrSplitMsg (v : PyVal) : String :=
  "\x27" ++ pyTypeName v ++ "\x27 object has no attribute \x27split\x27"

/-- The str(e) of the TypeError raised by enumerate(urls) when urls is
not iterable. -/
def notIterableMsg (v : PyVal) : String :=
  "\x27" ++ pyTypeName v ++ "\x27 object is not iterable"

/-- Iteration over a Python value: lists yield their elements, strings
their characters (as one-character strings); everything else raises
TypeError. -/
def pyIter : PyVal → Option (List PyVal)
  | .list xs => some xs
  | .str s => some (s.toList.map (fun c => PyVal.str (String.mk [c])))
  | _ => Option.none

/-- Lines 415-431, the loop body run over the remaining URLs with the
current 0-based index i and total count n: derive the filename and the
target path, call import_remote_asset (with its default temp_download =
True), and label the per-item outcome; a non-string element makes
url.split raise inside the per-item try, which is caught and rendered
with the item index. -/
def batchLoop (env : Env) (st : St) (items : List PyVal) (i n : Nat)
    (tf : String) (ov : Bool) : List String × St × List Eff :=
  match items with
  | [] => ([], st, [])
  | url :: rest =>
    let label := "[" ++ toString (i + 1) ++ "/" ++ toString n ++ "] "
    match url with
    | PyVal.str u =>
        let fname := filenameFromUrl u
        let tpath := tf ++ "/" ++ fname
        let r := import_remote_asset env st (PyVal.str u) (PyVal.str tpath) ov true
        let line := match r.1 with
          | .ok res => label ++ fname ++ ": " ++ res
          | .error e => label ++ u ++ ": 錯誤 - " ++ e
        let rl := batchLoop env r.2.1 rest (i + 1) n tf ov
        (line :: rl.1, rl.2.1, r.2.2 ++ rl.2.2)
    | v =>
        let line := label ++ pyRepr v ++ ": 錯誤 - " ++ attrSplitMsg v
        let rl := batchLoop env st rest (i + 1) n tf ov
        (line :: rl.1, rl.2.1, rl.2.2)

/-- batch_import_remote_assets: an empty (falsy) urls value returns the
fixed nothing-to-do message; otherwise the value is enumerated — raising
an uncaught TypeError when it is not iterable, since the loop is the
only guarded region — and the per-item lines are joined with newlines. -/
def batch_import_remote_assets (env : Env) (st : St) (urls : PyVal)
    (tf : String) (ov : Bool) : Except String String × St × List Eff :=
  if !pyTruthy urls then (.ok "URL列表為空，沒有資源需要導入", st, [])
  else
    match pyIter urls with
    | Option.none => (.error (notIterableMsg urls), st, [])
    | some items =>
        let r := batchLoop env st items 0 items.length tf ov
        (.ok (String.intercalate "\n" r.1), r.2.1, r.2.2)

/-! ## set_material (material_tools.py lines 8-89) -/

/-- Lines 57-58: the color length error. -/
def colorLenMsg (k : Nat) : String :=
  "Error: Color must have 3 (RGB) or 4 (RGBA) components, but got " ++
    toString k ++ "."

/-- isinstance(value, (int, float)); Python booleans are ints. -/
def isNumberPy : PyVal → Bool
  | .num _ => true
  | .bool _ => true
  | _ => false

/-- The numeric value of a number-like component. -/
def numVal : PyVal → ℚ
  | .num q => q
  | .bool b => if b then 1 else 0
  | _ => 0

/-- Line 66: "RGBA"[i] when i < 4, otherwise the component label (the
latter is unreachable, since the length was checked to be 3 or 4). -/
def channelName (i : Nat) : String :=
  if i < 4 then ["R", "G", "B", "A"].getD i "" else "component " ++ toString i

/-- Lines 61-67: walk the color components with their index and return
the first validation error, if any. -/
def validateColor : List PyVal → Nat → Option String
  | [], _ => Option.none
  | v :: rest, i =>
      if !isNumberPy v then
        some ("Error: Color component at index " ++ toString i ++
          " is not a number.")
      else if numVal v < 0 || numVal v > 1 then
        some ("Error: Color " ++ channelName i ++
          " value must be in the range 0.0-1.0, but got " ++ pyRepr v ++ ".")
      else validateColor rest (i + 1)

/-- Python truthiness of the optional material_name argument: None and
the empty string are falsy. -/
def matNameTruthy : Option String → Bool
  | some m => m != ""
  | Option.none => false

/-- Python truthiness of the optional color argument: None and the empty
list are falsy, so an empty color list skips both the validation block
(line 55) and the parameter insertion (line 76). -/
def colorTruthy : Option (List PyVal) → Bool
  | some cs => !cs.isEmpty
  | Option.none => false

/-- The GET_ASSET_LIST parameters of the material lookup, lines 43-47. -/
def matListParams (m : String) : List (String × PyVal) :=
  [("type", PyVal.str "Material"), ("search_pattern", PyVal.str m),
   ("folder", PyVal.str "Assets/Materials")]

/-- The SET_MATERIAL parameters assembled on lines 70-77. -/
def setMatParams (object_name : String) (material_name : Option String)
    (color : Option (List PyVal)) (cif : Bool) : List (String × PyVal) :=
  [("object_name", PyVal.str object_name), ("create_if_missing", PyVal.bool cif)]
    ++ (if matNameTruthy material_name then
          [("material_name", PyVal.str (material_name.getD ""))] else [])
    ++ (if colorTruthy color then
          [("color", PyVal.list (color.getD []))] else [])

/-- Lines 29-87, the body of the try block of set_material: find the
object, optionally look the material up, validate a truthy color list,
send SET_MATERIAL and format the response. -/
def setMaterialRun (env : Env) (object_name : String)
    (material_name : Option String) (color : Option (List PyVal))
    (cif : Bool) : Except String String × List Eff :=
  if !env.connOk then (.error env.connErr, [])
  else
    let tr0 := [Eff.send "FIND_OBJECTS_BY_NAME" [("name", PyVal.str object_name)]]
    match env.findObjects object_name with
    | .error e => (.error e, tr0)
    | .ok objs =>
      if objs.isEmpty then
        (.ok ("GameObject \x27" ++ object_name ++ "\x27 not found in the scene."), tr0)
      else
        let m := material_name.getD ""
        let matGate : Except String Bool × List Eff :=
          if matNameTruthy material_name then
            match env.assetList (matListParams m) with
            | .error e => (.error e, [Eff.send "GET_ASSET_LIST" (matListParams m)])
            | .ok assets =>
                let matExists := assets.any (fun a => a.name == m)
                if !matExists && !cif then
                  (.ok false, [Eff.send "GET_ASSET_LIST" (matListParams m)])
                else (.ok true, [Eff.send "GET_ASSET_LIST" (matListParams m)])
          else (.ok true, [])
        match matGate with
        | (.error e, tr1) => (.error e, tr0 ++ tr1)
        | (.ok false, tr1) =>
            (.ok ("Material \x27" ++ m ++
              "\x27 not found. Use create_if_missing=True to create it."), tr0 ++ tr1)
        | (.ok true, tr1) =>
            let cs := color.getD []
            let colorCheck : Option String :=
              if colorTruthy color then
                if !(cs.length == 3 || cs.length == 4) then
                  some (colorLenMsg cs.length)
                else validateColor cs 0
              else Option.none
            match colorCheck with
            | some err => (.ok err, tr0 ++ tr1)
            | Option.none =>
                let ps := setMatParams object_name material_name color cif
                let tr2 := [Eff.send "SET_MATERIAL" ps]
                match env.setMaterialResp ps with
                | .error e => (.error e, tr0 ++ tr1 ++ tr2)
                | .ok r =>
                    let mn := r.material_name.getD "unknown"
                    match r.path with
                    | some p =>
                        (.ok ("Applied shared material \x27" ++ mn ++ "\x27 to "
                          ++ object_name ++ " (saved at " ++ p ++ ")"), tr0 ++ tr1 ++ tr2)
                    | Option.none =>
                        (.ok ("Applied instance material \x27" ++ mn ++ "\x27 to "
                          ++ object_name), tr0 ++ tr1 ++ tr2)

/-- set_material: the body wrapped in the try/except of lines 29/88-89,
converting any raised exception into an error string. -/
def set_material (env : Env) (object_name : String)
    (material_name : Option String) (color : Option (List PyVal))
    (cif : Bool) : String × List Eff :=
  match setMaterialRun env object_name material_name color cif with
  | (.error e, tr) => ("Error setting material: " ++ e, tr)
  | (.ok s, tr) => (s, tr)

/-! ## Concrete environments and expected batch lines -/

/-- An empty filesystem. -/
def emptySt : St := { files := [], dirs := [], tempCounter := 0 }

/-- A well-behaved world: connection up, no pre-existing assets, all
downloads succeed with one chunk, imports succeed, cleanup works. -/
def baseEnv : Env where
  connOk := true
  connErr := "conn"
  assetList := fun _ => .ok []
  importAsset := fun _ _ _ => .ok { success := true, message := Option.none, error := Option.none }
  dl := fun _ _ => Dl.ok [[1]]
  tempName := fun k => "/tmp/t" ++ toString k
  removeFails := fun _ => false
  rmdirFails := fun _ => false
  home := "/home/u"
  findObjects := fun _ => .ok ["Cube"]
  setMaterialResp := fun _ => .ok { material_name := some "M", path := Option.none }

/-- baseEnv with every download failing before the file is opened. -/
def dlFailEnv : Env := { baseEnv with dl := fun _ _ => Dl.statusFail }

/-- baseEnv with every download failing mid-transfer after one chunk. -/
def midFailEnv : Env := { baseEnv with dl := fun _ _ => Dl.midFail [[7]] }

/-- baseEnv where the asset listing reports Assets/a.fbx as existing. -/
def existsEnv : Env :=
  { baseEnv with assetList := fun _ => .ok [{ path := "Assets/a.fbx", name := "a.fbx" }] }

/-- baseEnv where downloads fail exactly for the URLs selected by bad. -/
def batchEnvOf (bad : String → Bool) : Env :=
  { baseEnv with dl := fun u _ => if bad u then Dl.statusFail else Dl.ok [[1]] }

/-- The per-item line batch_import_remote_assets produces under
batchEnvOf bad for the 0-based index i out of n: the 1-based [i+1/n]
label, the filename, and either the download-failure message or the
default success message of import_remote_asset. -/
def lineFor (bad : String → Bool) (tf : String) (n i : Nat) (u : String) : String :=
  let fname := filenameFromUrl u
  "[" ++ toString (i + 1) ++ "/" ++ toString n ++ "] " ++ fname ++ ": " ++
    (if bad u then "從URL下載資源失敗: " ++ u
     else "資源成功從" ++ u ++ "導入到" ++ normalizeTarget (tf ++ "/" ++ fname))

/-- The expected batch lines from 0-based index i on. -/
def linesFor (bad : String → Bool) (tf : String) (n : Nat) : Nat → List String → List String
  | _, [] => []
  | i, u :: rest => lineFor bad tf n i u :: linesFor bad tf n (i + 1) rest

/-! ## Helper lemmas on the string primitives -/

theorem mem_of_mem_takeWhile {p : Char → Bool} {x : Char} :
    ∀ {l : List Char}, x ∈ l.takeWhile p → x ∈ l
  | [], h => h
  | a :: l, h => by
      by_cases hp : p a
      · rw [List.takeWhile_cons_of_pos hp] at h
        rcases List.mem_cons.mp h with h | h
        · exact h ▸ List.mem_cons_self a l
        · exact List.mem_cons_of_mem a (mem_of_mem_takeWhile h)
      · rw [List.takeWhile_cons_of_neg hp] at h
        exact absurd h (List.not_mem_nil x)

theorem pred_of_mem_takeWhile {p : Char → Bool} {x : Char} :
    ∀ {l : List Char}, x ∈ l.takeWhile p → p x = true
  | [], h => absurd h (List.not_mem_nil x)
  | a :: l, h => by
      by_cases hp : p a
      · rw [List.takeWhile_cons_of_pos hp] at h
        rcases List.mem_cons.mp h with h | h
        · exact h ▸ hp
        · exact pred_of_mem_takeWhile h
      · rw [List.takeWhile_cons_of_neg hp] at h
        exact absurd h (List.not_mem_nil x)

theorem takeWhile_dropWhile_nil (p : Char → Bool) :
    ∀ l : List Char, (l.dropWhile p).takeWhile p = []
  | [] => rfl
  | a :: l => by
      by_cases hp : p a
      · rw [List.dropWhile_cons_of_pos hp]
        exact takeWhile_dropWhile_nil p l
      · rw [List.dropWhile_cons_of_neg hp, List.takeWhile_cons_of_neg hp]

theorem pyStartsWith_iff {s p : String} :
    pyStartsWith s p = true ↔ p.toList <+: s.toList := by
  simp [pyStartsWith]

theorem toList_append (s t : String) : (s ++ t).toList = s.toList ++ t.toList := by
  simp [String.toList, String.data_append]

theorem pyStartsWith_self_append (p t : String) : pyStartsWith (p ++ t) p = true := by
  rw [pyStartsWith_iff, toList_append]
  exact ⟨t.toList, rfl⟩

theorem pyStartsWith_stretch {s p : String} (t : String)
    (h : pyStartsWith s p = true) : pyStartsWith (s ++ t) p = true := by
  rw [pyStartsWith_iff, toList_append]
  rcases pyStartsWith_iff.mp h with ⟨r, hr⟩
  exact ⟨r ++ t.toList, by rw [← hr]; simp⟩

theorem pyStartsWith_strict_false (a b : String) (hb : b.toList ≠ []) :
    pyStartsWith a (a ++ b) = false := by
  by_contra h
  have h1 : pyStartsWith a (a ++ b) = true := by
    rcases Bool.eq_false_or_eq_true (pyStartsWith a (a ++ b)) with h1 | h1
    · exact h1
    · exact absurd h1 h
  have h2 : (a ++ b).toList <+: a.toList := pyStartsWith_iff.mp h1
  have h3 := h2.length_le
  rw [toList_append, List.length_append] at h3
  have h4 : b.toList.length ≠ 0 := fun hz => hb (List.eq_nil_of_length_eq_zero hz)
  omega

theorem beforeFirst_afterLast (l : List Char)
    (h : ∀ c ∈ l.dropWhile (fun a => a != '?'), c ≠ '/') :
    beforeFirst '?' (afterLast '/' l) = afterLast '/' (beforeFirst '?' l) := by
  have hsplit : l.takeWhile (fun a => a != '?') ++ l.dropWhile (fun a => a != '?') = l :=
    List.takeWhile_append_dropWhile _ l
  have hb : ∀ x ∈ (l.dropWhile (fun a => a != '?')).reverse, (x != '/') = true := by
    intro x hx
    exact bne_iff_ne.mpr (h x (List.mem_reverse.mp hx))
  have ha : ∀ x ∈ l.takeWhile (fun a => a != '?'), (x != '?') = true := by
    intro x hx
    exact @pred_of_mem_takeWhile (fun a => a != '?') x l hx
  have h1 : afterLast '/' l =
      afterLast '/' (l.takeWhile (fun a => a != '?')) ++
        l.dropWhile (fun a => a != '?') := by
    unfold afterLast
    conv_lhs => rw [← hsplit]
    rw [List.reverse_append, List.takeWhile_append_of_pos hb, List.reverse_append,
      List.reverse_reverse]
  have h2 : ∀ x ∈ afterLast '/' (l.takeWhile (fun a => a != '?')),
      (x != '?') = true := by
    intro x hx
    unfold afterLast at hx
    have hx2 : x ∈ (l.takeWhile (fun a => a != '?')).reverse :=
      mem_of_mem_takeWhile (List.mem_reverse.mp hx)
    exact ha x (List.mem_reverse.mp hx2)
  show (afterLast '/' l).takeWhile (fun a => a != '?') =
    afterLast '/' (l.takeWhile (fun a => a != '?'))
  rw [h1, List.takeWhile_append_of_pos h2, takeWhile_dropWhile_nil, List.append_nil]

theorem string_mk_toList (s : String) : String.mk s.toList = s := rfl

theorem dirname_join (td fn : String)
    (hfn : ∀ c ∈ fn.toList, c ≠ '/')
    (htd : td.toList.reverse.headD '/' ≠ '/') :
    dirname (td ++ "/" ++ fn) = td := by
  obtain ⟨c, rest, hrev, hc⟩ :
      ∃ c rest, td.toList.reverse = c :: rest ∧ c ≠ '/' := by
    cases hr : td.toList.reverse with
    | nil => rw [hr] at htd; exact absurd rfl htd
    | cons c rest =>
        rw [hr] at htd
        exact ⟨c, rest, rfl, htd⟩
  have hlrev : (td ++ "/" ++ fn).toList.reverse =
      fn.toList.reverse ++ '/' :: td.toList.reverse := by
    rw [toList_append, toList_append, List.reverse_append, List.reverse_append]
    rfl
  have hfnrev : ∀ x ∈ fn.toList.reverse, (x != '/') = true := by
    intro x hx
    exact bne_iff_ne.mpr (hfn x (List.mem_reverse.mp hx))
  have hdrop : (td ++ "/" ++ fn).toList.reverse.dropWhile (fun a => a != '/') =
      '/' :: td.toList.reverse := by
    rw [hlrev, List.dropWhile_append_of_pos hfnrev, List.dropWhile_cons_of_neg (by simp)]
  have hheadEq : dirnameHead (td ++ "/" ++ fn) = td.toList ++ ['/'] := by
    unfold dirnameHead
    rw [hdrop]
    simp
  unfold dirname
  rw [hheadEq]
  have hne : (td.toList ++ ['/']).isEmpty = false := by
    simp [List.isEmpty_iff]
  have hall : (td.toList ++ ['/']).all (fun a => a == '/') = false := by
    rcases Bool.eq_false_or_eq_true ((td.toList ++ ['/']).all (fun a => a == '/')) with hA | hA
    · have hmem : c ∈ td.toList ++ ['/'] := by
        have : c ∈ td.toList := List.mem_reverse.mp (by rw [hrev]; exact List.mem_cons_self c rest)
        exact List.mem_append_left _ this
      have := List.all_eq_true.mp hA c hmem
      exact absurd (by simpa using this) hc
    · exact hA
  rw [hne, hall]
  simp only [Bool.or_false, Bool.false_eq_true, if_false]
  rw [List.reverse_append]
  show String.mk ((List.dropWhile (fun a => a == '/') (['/'].reverse ++ td.toList.reverse)).reverse) = td
  rw [show (['/'] : List Char).reverse = ['/'] from rfl]
  rw [show ((['/'] : List Char) ++ td.toList.reverse) = '/' :: td.toList.reverse from rfl]
  rw [List.dropWhile_cons_of_pos (by simp), hrev,
    List.dropWhile_cons_of_neg (by simpa using hc), ← hrev, List.reverse_reverse]
  exact string_mk_toList td

/-! ## Structural lemmas about the importer stages -/

theorem download_file_trace (env : Env) (st : St) (u p : String) :
    (download_file env st u p).2.2 = [Eff.httpGet u] := by
  unfold download_file
  cases env.dl u p <;> rfl

theorem download_file_dirs (env : Env) (st : St) (u p : String) :
    (download_file env st u p).2.1.dirs = (mkdirs st (dirname p)).dirs := by
  unfold download_file
  cases env.dl u p <;> rfl

theorem download_file_counter (env : Env) (st : St) (u p : String) :
    (download_file env st u p).2.1.tempCounter = st.tempCounter := by
  unfold download_file mkdirs writeFile removeFile
  cases env.dl u p <;> (dsimp only []; split <;> rfl)

theorem mkdirs_self_mem (st : St) (d : String) : d ∈ (mkdirs st d).dirs := by
  unfold mkdirs
  split
  · assumption
  · exact List.mem_cons_self _ _

theorem mkdirs_mem_of_mem (st : St) (e d : String) (h : d ∈ st.dirs) :
    d ∈ (mkdirs st e).dirs := by
  unfold mkdirs
  split
  · exact h
  · exact List.mem_cons_of_mem _ h

theorem mkdirs_idem (st : St) (d : String) :
    mkdirs (mkdirs st d) d = mkdirs st d := by
  rw [show mkdirs (mkdirs st d) d =
    (if d ∈ (mkdirs st d).dirs then mkdirs st d
     else { mkdirs st d with dirs := d :: (mkdirs st d).dirs }) from rfl]
  rw [if_pos (mkdirs_self_mem st d)]

theorem bne_true_of_ne {s t : String} (h : s ≠ t) : (s != t) = true :=
  bne_iff_ne.mpr h

theorem run_past_gate (env : Env) (st : St) (u s : String) (ov td : Bool)
    (assets : List Asset)
    (hc : env.connOk = true) (hu : u ≠ "") (hs : s ≠ "")
    (hl : env.assetList (listParamsOf (normalizeTarget s)) = Except.ok assets)
    (hg : (assets.any (fun a => a.path == normalizeTarget s) && !ov) = false) :
    importRemoteAssetRun env st (PyVal.str u) (PyVal.str s) ov td =
      ((importStepDl env st u (normalizeTarget s) ov td).1,
       (importStepDl env st u (normalizeTarget s) ov td).2.1,
       Eff.send "GET_ASSET_LIST" (listParamsOf (normalizeTarget s)) ::
         (importStepDl env st u (normalizeTarget s) ov td).2.2) := by
  unfold importRemoteAssetRun
  rw [hc]
  simp only [pyTruthy, pyIsStr, pyAsStr, bne_true_of_ne hu, bne_true_of_ne hs,
    Bool.and_true, Bool.true_and, Bool.not_true, Bool.false_eq_true, if_false,
    Bool.not_false]
  rw [hl]
  simp only [hg, Bool.false_eq_true, if_false]

theorem wrapper_of_ok {env : Env} {st : St} {url tgt : PyVal} {ov td : Bool}
    {s : String} {st2 : St} {tr : List Eff}
    (h : importRemoteAssetRun env st url tgt ov td = (Except.ok s, st2, tr)) :
    import_remote_asset env st url tgt ov td = (Except.ok s, st2, tr) := by
  unfold import_remote_asset
  rw [h]

theorem wrapper_of_error {env : Env} {st : St} {url tgt : PyVal} {ov td : Bool}
    {e : String} {st2 : St} {tr : List Eff}
    (h : importRemoteAssetRun env st url tgt ov td = (Except.error e, st2, tr)) :
    import_remote_asset env st url tgt ov td =
      (Except.ok ("導入遠程資源時發生錯誤: " ++ e), st2, tr) := by
  unfold import_remote_asset
  rw [h]

theorem wrapper_snd (env : Env) (st : St) (url tgt : PyVal) (ov td : Bool) :
    (import_remote_asset env st url tgt ov td).2 =
      (importRemoteAssetRun env st url tgt ov td).2 := by
  unfold import_remote_asset
  rcases h : importRemoteAssetRun env st url tgt ov td with ⟨r, st2, tr⟩
  cases r <;> rfl

/-! ## Claim C3: the computed download filename -/

/-- Claim C3, counterexample: for the URL http://h/a?x=/y/z the last path
segment taken before the question mark is a, but the code computes z,
because it splits on slashes first (line 351 of asset_tools.py) and the
query string contains a slash. The claim as stated is therefore false. -/
theorem c3_counterexample :
    filenameFromUrl "http://h/a?x=/y/z" = "z" ∧
    specFilename "http://h/a?x=/y/z" = "a" ∧
    filenameFromUrl "http://h/a?x=/y/z" ≠ specFilename "http://h/a?x=/y/z" := by
  exact ⟨rfl, rfl, by decide⟩

/-- Claim C3, amended: the computed download filename is the URL's last
slash-separated segment with that segment's query suffix discarded;
whenever no slash occurs at or after the first question mark of the URL,
it equals the last path segment taken before any question mark. (The
condition is sufficient, not necessary: a URL whose query part repeats
the pre-question-mark segment can make the two coincide anyway.) -/
theorem c3_amended (u : String)
    (h : ∀ c ∈ u.toList.dropWhile (fun a => a != '?'), c ≠ '/') :
    filenameFromUrl u = specFilename u := by
  unfold filenameFromUrl specFilename
  exact congrArg String.mk (beforeFirst_afterLast u.toList h)

/-- Witness for c3_amended at a concrete URL with a query string. -/
theorem c3_amended_witness :
    (∀ c ∈ ("https://host/dir/model.fbx?v=2" : String).toList.dropWhile
        (fun a => a != '?'), c ≠ '/') ∧
    filenameFromUrl "https://host/dir/model.fbx?v=2" =
      specFilename "https://host/dir/model.fbx?v=2" :=
  ⟨by decide, c3_amended "https://host/dir/model.fbx?v=2" (by decide)⟩

/-! ## Claim C7: empty batch -/

/-- Claim C7: batch_import_remote_assets called with an empty URL list
returns the fixed nothing-to-do message, sends no command, performs no
download, and leaves the filesystem untouched, for every environment and
initial state. -/
theorem c7_empty_batch (env : Env) (st : St) (tf : String) (ov : Bool) :
    batch_import_remote_assets env st (PyVal.list []) tf ov =
      (Except.ok "URL列表為空，沒有資源需要導入", st, []) := rfl

/-! ## Counterexamples for claims C1, C2, C5, C9, C10 -/

/-- Claim C1, counterexample: with temp_download true and a download that
fails with a transport error, import_remote_asset completes (returning
the download-failure status), yet the temporary directory /tmp/t0 created
for the request is still on disk: the cleanup of lines 379-384 of
asset_tools.py is only reached when the download succeeded, so the
early-return paths leak the directory. -/
theorem c1_counterexample :
    (import_remote_asset dlFailEnv emptySt (PyVal.str "http://h/a.fbx")
        (PyVal.str "a.fbx") false true).1 =
      Except.ok "從URL下載資源失敗: http://h/a.fbx" ∧
    (import_remote_asset dlFailEnv emptySt (PyVal.str "http://h/a.fbx")
        (PyVal.str "a.fbx") false true).2.1.dirs = ["/tmp/t0"] :=
  ⟨rfl, rfl⟩

/-- Claim C2, counterexample: a download that fails mid-transfer after
one chunk reports failure, but the partially written file is left at the
resolved download path: download_file (lines 269-293 of asset_tools.py)
writes directly to the final name and deletes nothing on failure, so
neither of the strategies the claim asserts is implemented. -/
theorem c2_counterexample :
    (download_file midFailEnv emptySt "http://h/a.bin" "/d/a.bin").1 = false ∧
    existsFile (download_file midFailEnv emptySt "http://h/a.bin" "/d/a.bin").2.1
      "/d/a.bin" = true :=
  ⟨rfl, rfl⟩

/-- Claim C5, counterexample: batch_import_remote_assets with a truthy
non-iterable urls argument (the integer 42) raises an uncaught TypeError:
the enumerate call on line 415 of asset_tools.py sits outside every
try/except, so the exception propagates to the caller. -/
theorem c5_counterexample :
    (batch_import_remote_assets baseEnv emptySt (PyVal.num 42)
        "Assets/ImportedAssets" false).1 =
      Except.error "\x27int\x27 object is not iterable" := rfl

/-- Claim C9, counterexample: with temp_download false, an asset already
present at the normalized target path and overwrite false, the call
returns the already-exists status on line 344 of asset_tools.py before
the cache directory is created on line 356, so after the call the
persistent cache directory still does not exist. -/
theorem c9_counterexample :
    (import_remote_asset existsEnv emptySt (PyVal.str "http://h/a.fbx")
        (PyVal.str "a.fbx") false false).1 =
      Except.ok (alreadyMsg "Assets/a.fbx") ∧
    (import_remote_asset existsEnv emptySt (PyVal.str "http://h/a.fbx")
        (PyVal.str "a.fbx") false false).2.1.dirs = [] :=
  ⟨rfl, rfl⟩

/-- Claim C10, counterexample: set_material with a found object and the
provided color list [] — whose length 0 is neither 3 nor 4 — does not
return an error and does send SET_MATERIAL: the truthiness test on line
55 of material_tools.py treats the empty list like None and skips the
validation block entirely. -/
theorem c10_counterexample :
    (set_material baseEnv "Cube" Option.none (some []) true).1 =
      "Applied instance material \x27M\x27 to Cube" ∧
    sentCmd (set_material baseEnv "Cube" Option.none (some []) true).2
      "SET_MATERIAL" = true :=
  ⟨rfl, rfl⟩

/-! ## Claim C4: pre-existence check precedes the download -/

/-- Claim C4: when the asset listing returns an entry whose path equals
the normalized target path exactly and overwrite is false, the operation
returns the already-exists status, its whole trace is the single
GET_ASSET_LIST query — in particular no HTTP request is ever issued —
and the filesystem is left untouched, so repeated calls never
re-download. -/
theorem c4_exists_precedes_download (env : Env) (st : St) (u s : String)
    (td : Bool) (assets : List Asset)
    (hc : env.connOk = true) (hu : u ≠ "") (hs : s ≠ "")
    (hl : env.assetList (listParamsOf (normalizeTarget s)) = Except.ok assets)
    (hex : assets.any (fun a => a.path == normalizeTarget s) = true) :
    import_remote_asset env st (PyVal.str u) (PyVal.str s) false td =
      (Except.ok (alreadyMsg (normalizeTarget s)), st,
        [Eff.send "GET_ASSET_LIST" (listParamsOf (normalizeTarget s))]) ∧
    httpCount (import_remote_asset env st (PyVal.str u) (PyVal.str s)
      false td).2.2 = 0 := by
  have hrun : importRemoteAssetRun env st (PyVal.str u) (PyVal.str s) false td =
      (Except.ok (alreadyMsg (normalizeTarget s)), st,
        [Eff.send "GET_ASSET_LIST" (listParamsOf (normalizeTarget s))]) := by
    unfold importRemoteAssetRun
    rw [hc]
    simp only [pyTruthy, pyIsStr, pyAsStr, bne_true_of_ne hu, bne_true_of_ne hs,
      Bool.and_true, Bool.true_and, Bool.not_true, Bool.false_eq_true, if_false,
      Bool.not_false]
    rw [hl]
    simp only [hex, Bool.not_false, Bool.and_true, if_true]
  have hw := wrapper_of_ok hrun
  refine ⟨hw, ?_⟩
  rw [hw]
  rfl

/-- Witness for c4_exists_precedes_download on a concrete world where
Assets/a.fbx is already listed. -/
theorem c4_witness :
    (import_remote_asset existsEnv emptySt (PyVal.str "http://h/a.fbx")
        (PyVal.str "a.fbx") false true =
      (Except.ok (alreadyMsg (normalizeTarget "a.fbx")), emptySt,
        [Eff.send "GET_ASSET_LIST" (listParamsOf (normalizeTarget "a.fbx"))])) ∧
    httpCount (import_remote_asset existsEnv emptySt (PyVal.str "http://h/a.fbx")
        (PyVal.str "a.fbx") false true).2.2 = 0 :=
  c4_exists_precedes_download existsEnv emptySt "http://h/a.fbx" "a.fbx" true
    [{ path := "Assets/a.fbx", name := "a.fbx" }] rfl (by decide) (by decide)
    rfl (by decide)


/-! ## Claim C5: the never-raises boundary -/

/-- Claim C5, amended: import_remote_asset converts every failure —
invalid argument types, collaborator exceptions, transport errors — into
a returned status string and never raises, for arbitrary argument values;
batch_import_remote_assets does the same whenever its urls argument is a
list (elements of any type: a non-string element produces a per-item
error line) — but not for every input, since a truthy non-iterable urls
value raises an uncaught TypeError (see the counterexample). -/
theorem c5_amended :
    (∀ (env : Env) (st : St) (url tgt : PyVal) (ov td : Bool),
      ∃ s, (import_remote_asset env st url tgt ov td).1 = Except.ok s) ∧
    (∀ (env : Env) (st : St) (xs : List PyVal) (tf : String) (ov : Bool),
      ∃ s, (batch_import_remote_assets env st (PyVal.list xs) tf ov).1 =
        Except.ok s) := by
  constructor
  · intro env st url tgt ov td
    unfold import_remote_asset
    rcases h : importRemoteAssetRun env st url tgt ov td with ⟨r, st2, tr⟩
    cases r with
    | error e => exact ⟨_, rfl⟩
    | ok s => exact ⟨s, rfl⟩
  · intro env st xs tf ov
    cases xs with
    | nil => exact ⟨_, rfl⟩
    | cons x rest => exact ⟨_, rfl⟩

/-! ## Trace shape of the importer -/

theorem stepAfter_trace (env : Env) (st : St) (u t dp : String) (ov : Bool)
    (topt : Option String) (ok : Bool) :
    (importStepAfterDl env st u t dp ov topt ok).2.2 = [] ∨
    (importStepAfterDl env st u t dp ov topt ok).2.2 =
      [Eff.send "IMPORT_ASSET" (importParamsOf dp t ov)] := by
  unfold importStepAfterDl
  split
  · exact Or.inl rfl
  split
  · exact Or.inl rfl
  split
  · exact Or.inr rfl
  · split <;> split <;> exact Or.inr rfl

theorem importStepWith_trace (env : Env) (st : St) (u t : String) (ov : Bool)
    (topt : Option String) (dp : String) :
    (importStepWith env st u t ov topt dp).2.2 = [Eff.httpGet u] ∨
    (importStepWith env st u t ov topt dp).2.2 =
      [Eff.httpGet u, Eff.send "IMPORT_ASSET" (importParamsOf dp t ov)] := by
  unfold importStepWith
  dsimp only
  rw [download_file_trace]
  rcases stepAfter_trace env (download_file env st u dp).2.1 u t dp ov topt
      (download_file env st u dp).1 with h | h
  · rw [h]
    exact Or.inl rfl
  · rw [h]
    exact Or.inr rfl

theorem stepDl_eq_temp (env : Env) (st : St) (u t : String) (ov : Bool) :
    importStepDl env st u t ov true =
      importStepWith env (tempStepSt env st) u t ov
        (some (env.tempName st.tempCounter))
        (env.tempName st.tempCounter ++ "/" ++ filenameFromUrl u) := by
  unfold importStepDl
  rw [if_pos rfl]

theorem stepDl_eq_cache (env : Env) (st : St) (u t : String) (ov : Bool) :
    importStepDl env st u t ov false =
      importStepWith env (mkdirs st (env.home ++ "/.unity_mcp_downloads")) u t ov
        Option.none (env.home ++ "/.unity_mcp_downloads" ++ "/" ++ filenameFromUrl u) := by
  unfold importStepDl
  rw [if_neg (by simp)]

theorem stepDl_trace (env : Env) (st : St) (u t : String) (ov td : Bool) :
    ∃ dp, (importStepDl env st u t ov td).2.2 = [Eff.httpGet u] ∨
      (importStepDl env st u t ov td).2.2 =
        [Eff.httpGet u, Eff.send "IMPORT_ASSET" (importParamsOf dp t ov)] := by
  cases td with
  | true =>
      rw [stepDl_eq_temp]
      exact ⟨_, importStepWith_trace env (tempStepSt env st) u t ov
        (some (env.tempName st.tempCounter))
        (env.tempName st.tempCounter ++ "/" ++ filenameFromUrl u)⟩
  | false =>
      rw [stepDl_eq_cache]
      exact ⟨_, importStepWith_trace env (mkdirs st (env.home ++ "/.unity_mcp_downloads"))
        u t ov Option.none (env.home ++ "/.unity_mcp_downloads" ++ "/" ++ filenameFromUrl u)⟩

theorem run_trace_shape (env : Env) (st : St) (url tgt : PyVal) (ov td : Bool) :
    (importRemoteAssetRun env st url tgt ov td).2.2 = [] ∨
    (importRemoteAssetRun env st url tgt ov td).2.2 =
      [Eff.send "GET_ASSET_LIST" (listParamsOf (normalizeTarget (pyAsStr tgt)))] ∨
    (importRemoteAssetRun env st url tgt ov td).2.2 =
      [Eff.send "GET_ASSET_LIST" (listParamsOf (normalizeTarget (pyAsStr tgt))),
       Eff.httpGet (pyAsStr url)] ∨
    ∃ dp, (importRemoteAssetRun env st url tgt ov td).2.2 =
      [Eff.send "GET_ASSET_LIST" (listParamsOf (normalizeTarget (pyAsStr tgt))),
       Eff.httpGet (pyAsStr url),
       Eff.send "IMPORT_ASSET" (importParamsOf dp (normalizeTarget (pyAsStr tgt)) ov)] := by
  unfold importRemoteAssetRun
  split
  · exact Or.inl rfl
  split
  · exact Or.inl rfl
  split
  · exact Or.inl rfl
  · dsimp only
    split
    · exact Or.inr (Or.inl rfl)
    · split
      · exact Or.inr (Or.inl rfl)
      · rcases stepDl_trace env st (pyAsStr url) (normalizeTarget (pyAsStr tgt)) ov td
          with ⟨dp, h | h⟩
        · refine Or.inr (Or.inr (Or.inl ?_))
          dsimp only
          rw [h]
        · refine Or.inr (Or.inr (Or.inr ⟨dp, ?_⟩))
          dsimp only
          rw [h]

/-! ## Claim C8: target-path normalization -/

/-- Claim C8: for every non-empty target path, the normalized path
begins with the Assets/ root, the existence query (GET_ASSET_LIST) is
built from exactly that normalized path, and any IMPORT_ASSET command
carries that normalized path as its target_path — on every execution
path of import_remote_asset. -/
theorem c8_normalized_target (env : Env) (st : St) (url : PyVal) (s : String)
    (ov td : Bool) (hs : s ≠ "") :
    pyStartsWith (normalizeTarget s) "Assets/" = true ∧
    (∀ ps, Eff.send "GET_ASSET_LIST" ps ∈
        (import_remote_asset env st url (PyVal.str s) ov td).2.2 →
      ps = listParamsOf (normalizeTarget s)) ∧
    (∀ ps, Eff.send "IMPORT_ASSET" ps ∈
        (import_remote_asset env st url (PyVal.str s) ov td).2.2 →
      ∃ dp, ps = importParamsOf dp (normalizeTarget s) ov) := by
  have htr : (import_remote_asset env st url (PyVal.str s) ov td).2.2 =
      (importRemoteAssetRun env st url (PyVal.str s) ov td).2.2 :=
    congrArg Prod.snd (wrapper_snd env st url (PyVal.str s) ov td)
  refine ⟨?_, ?_, ?_⟩
  · unfold normalizeTarget
    split
    · assumption
    · exact pyStartsWith_self_append "Assets/" s
  · intro ps hm
    rw [htr] at hm
    rcases run_trace_shape env st url (PyVal.str s) ov td with h | h | h | ⟨dp, h⟩ <;>
      rw [h] at hm <;> simp at hm
    · exact hm
    · exact hm
    · exact hm
  · intro ps hm
    rw [htr] at hm
    rcases run_trace_shape env st url (PyVal.str s) ov td with h | h | h | ⟨dp, h⟩ <;>
      rw [h] at hm <;> simp at hm
    exact ⟨dp, hm⟩

/-- Witness for c8_normalized_target at a concrete call. -/
theorem c8_witness :
    pyStartsWith (normalizeTarget "a.fbx") "Assets/" = true ∧
    (∀ ps, Eff.send "GET_ASSET_LIST" ps ∈
        (import_remote_asset baseEnv emptySt (PyVal.str "http://h/a.fbx")
          (PyVal.str "a.fbx") false true).2.2 →
      ps = listParamsOf (normalizeTarget "a.fbx")) ∧
    (∀ ps, Eff.send "IMPORT_ASSET" ps ∈
        (import_remote_asset baseEnv emptySt (PyVal.str "http://h/a.fbx")
          (PyVal.str "a.fbx") false true).2.2 →
      ∃ dp, ps = importParamsOf dp (normalizeTarget "a.fbx") false) :=
  c8_normalized_target baseEnv emptySt (PyVal.str "http://h/a.fbx") "a.fbx"
    false true (by decide)

/-! ## Evaluation lemmas for the download and import tail -/

theorem existsFile_writeFile (st : St) (p : String) (c : List Nat) :
    existsFile (writeFile st p c) p = true := by
  unfold existsFile writeFile
  simp

theorem filename_no_slash (u : String) :
    ∀ c ∈ (filenameFromUrl u).toList, c ≠ '/' := by
  intro c hc
  unfold filenameFromUrl beforeFirst afterLast at hc
  have h1 : c ∈ (u.toList.reverse.takeWhile (fun a => a != '/')).reverse :=
    mem_of_mem_takeWhile hc
  have h2 := @pred_of_mem_takeWhile (fun a => a != '/') c u.toList.reverse
    (List.mem_reverse.mp h1)
  exact bne_iff_ne.mp h2

theorem concat_slash_ne (a b : String) : a ++ "/" ++ b ≠ "" := by
  intro h
  have h2 := congrArg String.toList h
  rw [toList_append, toList_append] at h2
  simp at h2

theorem importStepWith_dl_fail (env : Env) (st : St) (u t : String) (ov : Bool)
    (topt : Option String) (dp : String)
    (h : (download_file env st u dp).1 = false) :
    (importStepWith env st u t ov topt dp).1 =
      Except.ok ("從URL下載資源失敗: " ++ u) := by
  unfold importStepWith
  dsimp only
  rw [h]
  rfl

theorem download_file_ok (env : Env) (st : St) (u dp : String)
    (chunks : List (List Nat)) (hdl : env.dl u dp = Dl.ok chunks) :
    download_file env st u dp =
      (true, writeFile (mkdirs st (dirname dp)) dp chunks.flatten,
        [Eff.httpGet u]) := by
  unfold download_file
  rw [hdl]

theorem download_file_midFail (env : Env) (st : St) (u dp : String)
    (w : List (List Nat)) (hdl : env.dl u dp = Dl.midFail w) :
    download_file env st u dp =
      (false, writeFile (mkdirs st (dirname dp)) dp w.flatten,
        [Eff.httpGet u]) := by
  unfold download_file
  rw [hdl]

theorem importStepWith_fst_ok (env : Env) (st : St) (u t : String) (ov : Bool)
    (topt : Option String) (dp : String) (chunks : List (List Nat)) (resp : Resp)
    (hdl : env.dl u dp = Dl.ok chunks)
    (himp : env.importAsset dp t ov = Except.ok resp) :
    (importStepWith env st u t ov topt dp).1 =
      (if !resp.success then
        Except.ok ("導入資源時發生錯誤: " ++ resp.error.getD "未知錯誤" ++
          " (URL: " ++ u ++ ", 目標: " ++ t ++ ")")
       else Except.ok (resp.message.getD ("資源成功從" ++ u ++ "導入到" ++ t))) := by
  unfold importStepWith
  dsimp only
  rw [download_file_ok env st u dp chunks hdl]
  dsimp only
  unfold importStepAfterDl
  rw [if_neg (by simp : ¬((!true) = true))]
  rw [existsFile_writeFile]
  rw [if_neg (by simp : ¬((!true) = true))]
  rw [himp]
  dsimp only
  split <;> rfl

/-! ## Claim C2: mid-transfer failure handling -/

/-- Claim C2, amended: a download that fails mid-transfer makes
download_file report failure (False), and import_remote_asset then
returns the download-failure status without ever consulting the file —
no partial file is treated as a valid existing download — but the
partially written chunks do remain at the resolved download path:
neither a temp-name rename nor a delete-on-failure is implemented. -/
theorem c2_amended :
    (∀ (env : Env) (st : St) (u dp : String) (w : List (List Nat)),
      env.dl u dp = Dl.midFail w →
      download_file env st u dp =
        (false, writeFile (mkdirs st (dirname dp)) dp w.flatten,
          [Eff.httpGet u])) ∧
    (∀ (env : Env) (st : St) (u s : String) (ov td : Bool)
       (assets : List Asset) (w : List (List Nat)),
      env.connOk = true → u ≠ "" → s ≠ "" →
      env.assetList (listParamsOf (normalizeTarget s)) = Except.ok assets →
      (assets.any (fun a => a.path == normalizeTarget s) && !ov) = false →
      (∀ dp, env.dl u dp = Dl.midFail w) →
      (import_remote_asset env st (PyVal.str u) (PyVal.str s) ov td).1 =
        Except.ok ("從URL下載資源失敗: " ++ u)) := by
  constructor
  · intro env st u dp w hdl
    exact download_file_midFail env st u dp w hdl
  · intro env st u s ov td assets w hc hu hs hl hg hdl
    have hfst : (importStepDl env st u (normalizeTarget s) ov td).1 =
        Except.ok ("從URL下載資源失敗: " ++ u) := by
      cases td with
      | true =>
          rw [stepDl_eq_temp]
          apply importStepWith_dl_fail
          rw [download_file_midFail env (tempStepSt env st) u _ w (hdl _)]
      | false =>
          rw [stepDl_eq_cache]
          apply importStepWith_dl_fail
          rw [download_file_midFail env
            (mkdirs st (env.home ++ "/.unity_mcp_downloads")) u _ w (hdl _)]
    have hrun := run_past_gate env st u s ov td assets hc hu hs hl hg
    have hfull : importRemoteAssetRun env st (PyVal.str u) (PyVal.str s) ov td =
        (Except.ok ("從URL下載資源失敗: " ++ u),
         (importStepDl env st u (normalizeTarget s) ov td).2.1,
         Eff.send "GET_ASSET_LIST" (listParamsOf (normalizeTarget s)) ::
           (importStepDl env st u (normalizeTarget s) ov td).2.2) := by
      rw [hrun, hfst]
    rw [wrapper_of_ok hfull]

/-- Witness for c2_amended: both parts applied in the mid-fail world. -/
theorem c2_amended_witness :
    download_file midFailEnv emptySt "http://h/a.bin" "/d/a.bin" =
      (false, writeFile (mkdirs emptySt (dirname "/d/a.bin")) "/d/a.bin"
        ([[7]] : List (List Nat)).flatten, [Eff.httpGet "http://h/a.bin"]) ∧
    (import_remote_asset midFailEnv emptySt (PyVal.str "http://h/a.fbx")
        (PyVal.str "a.fbx") false true).1 =
      Except.ok ("從URL下載資源失敗: " ++ "http://h/a.fbx") :=
  ⟨c2_amended.1 midFailEnv emptySt "http://h/a.bin" "/d/a.bin" [[7]] rfl,
   c2_amended.2 midFailEnv emptySt "http://h/a.fbx" "a.fbx" false true [] [[7]]
     rfl (by decide) (by decide) rfl (by decide) (fun dp => rfl)⟩

/-! ## Claim C9: the persistent cache directory -/

theorem stepAfter_st_cacheMode (env : Env) (st : St) (u t dp : String)
    (ov : Bool) (ok : Bool) :
    (importStepAfterDl env st u t dp ov Option.none ok).2.1 = st := by
  unfold importStepAfterDl
  split
  · rfl
  split
  · rfl
  dsimp only
  split
  · rfl
  · split <;> rfl

/-- Claim C9, amended: with temp_download false, whenever the call
passes the argument checks and the pre-existence gate (so the directory
resolution of lines 353-360 is reached), the persistent cache directory
exists after the call whether or not it existed before; no directory
existing beforehand is ever deleted on this path; and the creation is
idempotent — making the directory when it already exists is a no-op
rather than an error. On runs that return before that point the
directory is not created (see the counterexample). -/
theorem c9_amended (env : Env) (st : St) (u s : String) (ov : Bool)
    (assets : List Asset)
    (hc : env.connOk = true) (hu : u ≠ "") (hs : s ≠ "")
    (hl : env.assetList (listParamsOf (normalizeTarget s)) = Except.ok assets)
    (hg : (assets.any (fun a => a.path == normalizeTarget s) && !ov) = false) :
    (env.home ++ "/.unity_mcp_downloads") ∈
      (import_remote_asset env st (PyVal.str u) (PyVal.str s) ov false).2.1.dirs ∧
    (∀ d, d ∈ st.dirs →
      d ∈ (import_remote_asset env st (PyVal.str u) (PyVal.str s) ov false).2.1.dirs) ∧
    mkdirs (mkdirs st (env.home ++ "/.unity_mcp_downloads"))
        (env.home ++ "/.unity_mcp_downloads") =
      mkdirs st (env.home ++ "/.unity_mcp_downloads") := by
  have hrun := run_past_gate env st u s ov false assets hc hu hs hl hg
  have hst : (import_remote_asset env st (PyVal.str u) (PyVal.str s) ov false).2.1 =
      (download_file env (mkdirs st (env.home ++ "/.unity_mcp_downloads")) u
        (env.home ++ "/.unity_mcp_downloads" ++ "/" ++ filenameFromUrl u)).2.1 := by
    have h1 : (import_remote_asset env st (PyVal.str u) (PyVal.str s) ov false).2.1 =
        (importRemoteAssetRun env st (PyVal.str u) (PyVal.str s) ov false).2.1 :=
      congrArg Prod.fst (wrapper_snd env st (PyVal.str u) (PyVal.str s) ov false)
    rw [h1, hrun]
    show (importStepDl env st u (normalizeTarget s) ov false).2.1 = _
    rw [stepDl_eq_cache]
    unfold importStepWith
    dsimp only
    rw [stepAfter_st_cacheMode]
  refine ⟨?_, ?_, mkdirs_idem st (env.home ++ "/.unity_mcp_downloads")⟩
  · rw [hst, download_file_dirs]
    exact mkdirs_mem_of_mem _ _ _ (mkdirs_self_mem st _)
  · intro d hd
    rw [hst, download_file_dirs]
    exact mkdirs_mem_of_mem _ _ _ (mkdirs_mem_of_mem _ _ _ hd)

/-- Witness for c9_amended in the base world from an empty filesystem. -/
theorem c9_amended_witness :
    ("/home/u" ++ "/.unity_mcp_downloads") ∈
      (import_remote_asset baseEnv emptySt (PyVal.str "http://h/a.fbx")
        (PyVal.str "a.fbx") false false).2.1.dirs ∧
    (∀ d, d ∈ emptySt.dirs →
      d ∈ (import_remote_asset baseEnv emptySt (PyVal.str "http://h/a.fbx")
        (PyVal.str "a.fbx") false false).2.1.dirs) ∧
    mkdirs (mkdirs emptySt ("/home/u" ++ "/.unity_mcp_downloads"))
        ("/home/u" ++ "/.unity_mcp_downloads") =
      mkdirs emptySt ("/home/u" ++ "/.unity_mcp_downloads") :=
  c9_amended baseEnv emptySt "http://h/a.fbx" "a.fbx" false []
    rfl (by decide) (by decide) rfl (by decide)

/-! ## Claim C1: temporary-directory cleanup -/

theorem stepAfter_st_temp (env : Env) (st : St) (u t dp td : String)
    (ov : Bool) (resp : Resp)
    (hex : existsFile st dp = true)
    (himp : env.importAsset dp t ov = Except.ok resp) :
    (importStepAfterDl env st u t dp ov (some td) true).2.1 =
      cleanupTemp env st dp td := by
  unfold importStepAfterDl
  rw [if_neg (by simp : ¬((!true) = true))]
  rw [hex]
  rw [if_neg (by simp : ¬((!true) = true))]
  rw [himp]
  dsimp only
  split <;> rfl

theorem cleanupTemp_fresh (env : Env) (st : St) (td fname : String)
    (C : List Nat) (n : Nat)
    (hrm : env.removeFails (td ++ "/" ++ fname) = false)
    (hrd : env.rmdirFails td = false)
    (hf : ∀ f ∈ st.files, pyStartsWith f.1 (td ++ "/") = false)
    (hd : ∀ e ∈ st.dirs, pyStartsWith e (td ++ "/") = false) :
    cleanupTemp env
        (writeFile { st with dirs := td :: st.dirs, tempCounter := n }
          (td ++ "/" ++ fname) C) (td ++ "/" ++ fname) td =
      { files := st.files, dirs := st.dirs.filter (fun e => e != td), tempCounter := n } := by
  have hne_dp : ∀ f ∈ st.files, (f.1 != (td ++ "/" ++ fname)) = true := by
    intro f hfm
    refine bne_iff_ne.mpr ?_
    intro he
    have h1 := hf f hfm
    rw [he] at h1
    rw [pyStartsWith_self_append (td ++ "/") fname] at h1
    exact absurd h1 (by simp)
  have hcond1 : (existsFile
      (writeFile { st with dirs := td :: st.dirs, tempCounter := n }
        (td ++ "/" ++ fname) C) (td ++ "/" ++ fname) &&
      !env.removeFails (td ++ "/" ++ fname)) = true := by
    rw [existsFile_writeFile, hrm]
    rfl
  unfold cleanupTemp
  rw [if_pos hcond1]
  have hrf : removeFile
      (writeFile { st with dirs := td :: st.dirs, tempCounter := n }
        (td ++ "/" ++ fname) C) (td ++ "/" ++ fname) =
      { files := st.files, dirs := td :: st.dirs, tempCounter := n } := by
    unfold removeFile writeFile
    dsimp only
    rw [List.filter_cons_of_neg (by simp)]
    rw [List.filter_eq_self.mpr hne_dp, List.filter_eq_self.mpr hne_dp]
  rw [hrf]
  have hempty : dirEmpty { files := st.files, dirs := td :: st.dirs, tempCounter := n } td = true := by
    unfold dirEmpty
    dsimp only
    rw [Bool.and_eq_true]
    constructor
    · rw [List.all_eq_true]
      intro f hfm
      rw [hf f hfm]
      rfl
    · rw [List.all_eq_true]
      intro e hem
      rcases List.mem_cons.mp hem with he | he
      · rw [he, pyStartsWith_strict_false td "/" (by decide)]
        rfl
      · rw [hd e he]
        rfl
  have hcond2 : ((td :: st.dirs).contains td && dirEmpty { files := st.files, dirs := td :: st.dirs, tempCounter := n } td && !env.rmdirFails td) = true := by
    rw [hempty, hrd]
    simp
  rw [if_pos hcond2]
  unfold removeDir
  dsimp only
  rw [List.filter_cons_of_neg (by simp)]

/-- Claim C1, amended: when temp_download is true and the flow reaches
the IMPORT_ASSET exchange (arguments valid, no pre-existence stop,
download succeeded, import collaborator responded), the downloaded file
and the temporary directory are deleted provided the cleanup operations
succeed and the directory is otherwise untouched; and the returned
message — success or import-collaborator failure — is the same for every
behaviour of the cleanup operations, i.e. a cleanup error never changes
the result. On the download-failure, file-missing and exception paths no
cleanup happens and the directory survives (see the counterexample). -/
theorem c1_amended (env : Env) (st : St) (u s td dp : String) (ov : Bool)
    (assets : List Asset) (chunks : List (List Nat)) (resp : Resp)
    (hc : env.connOk = true) (hu : u ≠ "") (hs : s ≠ "")
    (hl : env.assetList (listParamsOf (normalizeTarget s)) = Except.ok assets)
    (hg : (assets.any (fun a => a.path == normalizeTarget s) && !ov) = false)
    (htd : env.tempName st.tempCounter = td)
    (hdp : dp = td ++ "/" ++ filenameFromUrl u)
    (hdl : env.dl u dp = Dl.ok chunks)
    (himp : env.importAsset dp (normalizeTarget s) ov = Except.ok resp)
    (hrm : env.removeFails dp = false)
    (hrd : env.rmdirFails td = false)
    (hf : ∀ f ∈ st.files, pyStartsWith f.1 (td ++ "/") = false)
    (hd : ∀ e ∈ st.dirs, pyStartsWith e (td ++ "/") = false)
    (hth : td.toList.reverse.headD '/' ≠ '/') :
    (import_remote_asset env st (PyVal.str u) (PyVal.str s) ov true).1 =
      Except.ok (if !resp.success then
          "導入資源時發生錯誤: " ++ resp.error.getD "未知錯誤" ++ " (URL: " ++ u ++
            ", 目標: " ++ normalizeTarget s ++ ")"
        else resp.message.getD ("資源成功從" ++ u ++ "導入到" ++ normalizeTarget s)) ∧
    (td ∈ (import_remote_asset env st (PyVal.str u) (PyVal.str s) ov true).2.1.dirs →
      False) ∧
    existsFile (import_remote_asset env st (PyVal.str u) (PyVal.str s) ov true).2.1
      dp = false ∧
    (∀ rf rd, (import_remote_asset { env with removeFails := rf, rmdirFails := rd }
        st (PyVal.str u) (PyVal.str s) ov true).1 =
      (import_remote_asset env st (PyVal.str u) (PyVal.str s) ov true).1) := by
  subst hdp
  have key : ∀ (env2 : Env), env2.connOk = true →
      env2.assetList (listParamsOf (normalizeTarget s)) = Except.ok assets →
      env2.tempName st.tempCounter = td →
      env2.dl u (td ++ "/" ++ filenameFromUrl u) = Dl.ok chunks →
      env2.importAsset (td ++ "/" ++ filenameFromUrl u) (normalizeTarget s) ov =
        Except.ok resp →
      (import_remote_asset env2 st (PyVal.str u) (PyVal.str s) ov true).1 =
        Except.ok (if !resp.success then
            "導入資源時發生錯誤: " ++ resp.error.getD "未知錯誤" ++ " (URL: " ++ u ++
              ", 目標: " ++ normalizeTarget s ++ ")"
          else resp.message.getD ("資源成功從" ++ u ++ "導入到" ++ normalizeTarget s)) := by
    intro env2 hc2 hl2 htd2 hdl2 himp2
    have hrun2 := run_past_gate env2 st u s ov true assets hc2 hu hs hl2 hg
    have hres : (importStepDl env2 st u (normalizeTarget s) ov true).1 =
        Except.ok (if !resp.success then
            "導入資源時發生錯誤: " ++ resp.error.getD "未知錯誤" ++ " (URL: " ++ u ++
              ", 目標: " ++ normalizeTarget s ++ ")"
          else resp.message.getD ("資源成功從" ++ u ++ "導入到" ++ normalizeTarget s)) := by
      rw [stepDl_eq_temp, htd2]
      rw [importStepWith_fst_ok env2 (tempStepSt env2 st) u (normalizeTarget s) ov
        (some td) (td ++ "/" ++ filenameFromUrl u) chunks resp hdl2 himp2]
      rw [← apply_ite Except.ok]
    rw [hres] at hrun2
    rw [wrapper_of_ok hrun2]
  have conj1 := key env hc hl htd hdl himp
  have hstate : (import_remote_asset env st (PyVal.str u) (PyVal.str s) ov
      true).2.1 =
      { files := st.files, dirs := st.dirs.filter (fun e => e != td), tempCounter := st.tempCounter + 1 } := by
    have h1 : (import_remote_asset env st (PyVal.str u) (PyVal.str s) ov true).2.1 =
        (importRemoteAssetRun env st (PyVal.str u) (PyVal.str s) ov true).2.1 :=
      congrArg Prod.fst (wrapper_snd env st (PyVal.str u) (PyVal.str s) ov true)
    have hrun := run_past_gate env st u s ov true assets hc hu hs hl hg
    rw [h1, hrun]
    show (importStepDl env st u (normalizeTarget s) ov true).2.1 = _
    rw [stepDl_eq_temp, htd]
    unfold importStepWith
    dsimp only
    rw [download_file_ok env (tempStepSt env st) u (td ++ "/" ++ filenameFromUrl u)
      chunks hdl]
    dsimp only
    rw [stepAfter_st_temp env _ u (normalizeTarget s) (td ++ "/" ++ filenameFromUrl u)
      td ov resp (existsFile_writeFile _ _ _) himp]
    have hdn : dirname (td ++ "/" ++ filenameFromUrl u) = td :=
      dirname_join td (filenameFromUrl u) (filename_no_slash u) hth
    rw [hdn]
    have hmk : mkdirs (tempStepSt env st) td = tempStepSt env st := by
      unfold mkdirs
      rw [if_pos ?mem]
      case mem =>
        show td ∈ env.tempName st.tempCounter :: st.dirs
        rw [htd]
        exact List.mem_cons_self _ _
    rw [hmk]
    have hts : tempStepSt env st =
        { st with dirs := td :: st.dirs, tempCounter := st.tempCounter + 1 } := by
      unfold tempStepSt
      rw [htd]
    rw [hts]
    exact cleanupTemp_fresh env st td (filenameFromUrl u) chunks.flatten
      (st.tempCounter + 1) hrm hrd hf hd
  refine ⟨conj1, ?_, ?_, ?_⟩
  · rw [hstate]
    intro hmem
    have h2 := List.mem_filter.mp hmem
    simp at h2
  · rw [hstate]
    unfold existsFile
    dsimp only
    rw [List.any_eq_false]
    intro f hfm hbe
    have h3 := hf f hfm
    rw [show f.1 = td ++ "/" ++ filenameFromUrl u from by simpa using hbe] at h3
    rw [pyStartsWith_self_append (td ++ "/") (filenameFromUrl u)] at h3
    exact absurd h3 (by simp)
  · intro rf rd
    rw [key { env with removeFails := rf, rmdirFails := rd } hc hl htd hdl himp,
      conj1]

/-- Witness for c1_amended: a successful temp-mode import in the base
world from an empty filesystem; the temp directory /tmp/t0 is gone. -/
theorem c1_amended_witness :
    (import_remote_asset baseEnv emptySt (PyVal.str "http://h/a.fbx")
        (PyVal.str "a.fbx") false true).1 =
      Except.ok (if !(Resp.mk true Option.none Option.none).success then
          "導入資源時發生錯誤: " ++
            (Resp.mk true Option.none Option.none).error.getD "未知錯誤" ++
            " (URL: " ++ "http://h/a.fbx" ++ ", 目標: " ++ normalizeTarget "a.fbx" ++ ")"
        else (Resp.mk true Option.none Option.none).message.getD
          ("資源成功從" ++ "http://h/a.fbx" ++ "導入到" ++ normalizeTarget "a.fbx")) ∧
    ("/tmp/t0" ∈ (import_remote_asset baseEnv emptySt (PyVal.str "http://h/a.fbx")
        (PyVal.str "a.fbx") false true).2.1.dirs → False) ∧
    existsFile (import_remote_asset baseEnv emptySt (PyVal.str "http://h/a.fbx")
        (PyVal.str "a.fbx") false true).2.1 "/tmp/t0/a.fbx" = false ∧
    (∀ rf rd, (import_remote_asset { baseEnv with removeFails := rf, rmdirFails := rd }
        emptySt (PyVal.str "http://h/a.fbx") (PyVal.str "a.fbx") false true).1 =
      (import_remote_asset baseEnv emptySt (PyVal.str "http://h/a.fbx")
        (PyVal.str "a.fbx") false true).1) :=
  c1_amended baseEnv emptySt "http://h/a.fbx" "a.fbx" "/tmp/t0" "/tmp/t0/a.fbx"
    false [] [[1]] (Resp.mk true Option.none Option.none)
    rfl (by decide) (by decide) rfl (by decide) (by decide) (by decide) rfl rfl
    rfl rfl (fun f hf => absurd hf (List.not_mem_nil f))
    (fun e he => absurd he (List.not_mem_nil e)) (by decide)

/-! ## Claim C6: batch lines -/

theorem import_on_batchEnv (bad : String → Bool) (st : St) (u tp : String)
    (ov : Bool) (hu : u ≠ "") (htp : tp ≠ "") :
    (import_remote_asset (batchEnvOf bad) st (PyVal.str u) (PyVal.str tp) ov
      true).1 =
      Except.ok (if bad u then "從URL下載資源失敗: " ++ u
        else "資源成功從" ++ u ++ "導入到" ++ normalizeTarget tp) := by
  have hrun := run_past_gate (batchEnvOf bad) st u tp ov true [] rfl hu htp rfl rfl
  by_cases hb : bad u = true
  · have hdl : (batchEnvOf bad).dl u ((batchEnvOf bad).tempName st.tempCounter ++
        "/" ++ filenameFromUrl u) = Dl.statusFail := by
      show (if bad u then Dl.statusFail else Dl.ok [[1]]) = Dl.statusFail
      rw [if_pos hb]
    have hfst : (importStepDl (batchEnvOf bad) st u (normalizeTarget tp) ov
        true).1 = Except.ok ("從URL下載資源失敗: " ++ u) := by
      rw [stepDl_eq_temp]
      apply importStepWith_dl_fail
      unfold download_file
      rw [hdl]
    rw [hfst] at hrun
    rw [wrapper_of_ok hrun, if_pos hb]
  · have hdl : (batchEnvOf bad).dl u ((batchEnvOf bad).tempName st.tempCounter ++
        "/" ++ filenameFromUrl u) = Dl.ok [[1]] := by
      show (if bad u then Dl.statusFail else Dl.ok [[1]]) = Dl.ok [[1]]
      rw [if_neg (by simpa using hb)]
    have hfst : (importStepDl (batchEnvOf bad) st u (normalizeTarget tp) ov
        true).1 = Except.ok ("資源成功從" ++ u ++ "導入到" ++ normalizeTarget tp) := by
      rw [stepDl_eq_temp]
      rw [importStepWith_fst_ok (batchEnvOf bad)
        (tempStepSt (batchEnvOf bad) st) u (normalizeTarget tp) ov
        (some ((batchEnvOf bad).tempName st.tempCounter))
        ((batchEnvOf bad).tempName st.tempCounter ++ "/" ++ filenameFromUrl u)
        [[1]] (Resp.mk true Option.none Option.none) hdl rfl]
      rfl
    rw [hfst] at hrun
    rw [wrapper_of_ok hrun, if_neg (by simpa using hb)]

theorem linesFor_length (bad : String → Bool) (tf : String) :
    ∀ (us : List String) (n i : Nat), (linesFor bad tf n i us).length = us.length
  | [], _, _ => rfl
  | u :: rest, n, i => by
      show (lineFor bad tf n i u :: linesFor bad tf n (i + 1) rest).length = _
      simp [linesFor_length bad tf rest n (i + 1)]

theorem linesFor_getD (bad : String → Bool) (tf : String) :
    ∀ (us : List String) (n i j : Nat), j < us.length →
      (linesFor bad tf n i us).getD j "" = lineFor bad tf n (i + j) (us.getD j "")
  | [], _, _, j, h => absurd h (by simp)
  | u :: rest, n, i, 0, _ => by
      show (lineFor bad tf n i u :: linesFor bad tf n (i + 1) rest).getD 0 "" = _
      simp
  | u :: rest, n, i, j + 1, h => by
      show (lineFor bad tf n i u :: linesFor bad tf n (i + 1) rest).getD (j + 1) "" = _
      rw [List.getD_cons_succ]
      rw [linesFor_getD bad tf rest n (i + 1) j (by simpa using Nat.lt_of_succ_lt_succ h)]
      show lineFor bad tf n (i + 1 + j) _ = lineFor bad tf n (i + (j + 1)) _
      rw [Nat.add_assoc, Nat.add_comm 1 j]
      rfl

theorem batchLoop_batchEnv (bad : String → Bool) (tf : String) (ov : Bool)
    (n : Nat) :
    ∀ (us : List String) (i : Nat) (st : St), (∀ u ∈ us, u ≠ "") →
      (batchLoop (batchEnvOf bad) st (us.map PyVal.str) i n tf ov).1 =
        linesFor bad tf n i us := by
  intro us
  induction us with
  | nil => intro i st _; rfl
  | cons u rest ih =>
      intro i st h
      have himp := import_on_batchEnv bad st u (tf ++ "/" ++ filenameFromUrl u) ov
        (h u (List.mem_cons_self u rest)) (concat_slash_ne tf (filenameFromUrl u))
      show (batchLoop (batchEnvOf bad) st (PyVal.str u :: rest.map PyVal.str)
        i n tf ov).1 = _
      unfold batchLoop
      dsimp only
      rw [himp]
      dsimp only
      rw [ih (i + 1) _ (fun v hv => h v (List.mem_cons_of_mem u hv))]
      rfl

/-- Claim C6: under a world where exactly the URLs selected by bad fail
to download and everything else succeeds, a non-empty batch of N
non-empty URLs returns the newline-join of exactly N per-item lines;
line j (0-based) is lineFor applied to the j-th input URL — carrying the
1-based [j+1/N] label, the filename, and the download-failure text when
that URL is bad or the success text otherwise — so one item's failure
never disturbs the other lines. -/
theorem c6_batch_lines (bad : String → Bool) (us : List String) (st : St)
    (tf : String) (ov : Bool) (hne : us ≠ []) (hok : ∀ u ∈ us, u ≠ "") :
    (batch_import_remote_assets (batchEnvOf bad) st
        (PyVal.list (us.map PyVal.str)) tf ov).1 =
      Except.ok (String.intercalate "\n" (linesFor bad tf us.length 0 us)) ∧
    (∀ n i, (linesFor bad tf n i us).length = us.length) ∧
    (∀ n i j, j < us.length → (linesFor bad tf n i us).getD j "" =
      lineFor bad tf n (i + j) (us.getD j "")) := by
  refine ⟨?_, fun n i => linesFor_length bad tf us n i,
    fun n i j hj => linesFor_getD bad tf us n i j hj⟩
  obtain ⟨x, rest, rfl⟩ : ∃ x rest, us = x :: rest := by
    cases us with
    | nil => exact absurd rfl hne
    | cons x rest => exact ⟨x, rest, rfl⟩
  unfold batch_import_remote_assets
  rw [if_neg (by simp [pyTruthy])]
  dsimp only [pyIter]
  rw [batchLoop_batchEnv bad tf ov ((x :: rest).map PyVal.str).length (x :: rest)
    0 st hok]
  rw [List.length_map]

/-- Witness for c6_batch_lines: three URLs, the middle one failing. -/
theorem c6_witness :
    (batch_import_remote_assets
        (batchEnvOf (fun v => v == "http://h/bad.fbx")) emptySt
        (PyVal.list ((["http://h/a.fbx", "http://h/bad.fbx", "http://h/c.fbx"] :
          List String).map PyVal.str)) "Assets/ImportedAssets" false).1 =
      Except.ok (String.intercalate "\n"
        (linesFor (fun v => v == "http://h/bad.fbx") "Assets/ImportedAssets" 3 0
          ["http://h/a.fbx", "http://h/bad.fbx", "http://h/c.fbx"])) ∧
    (∀ n i, (linesFor (fun v => v == "http://h/bad.fbx") "Assets/ImportedAssets"
        n i ["http://h/a.fbx", "http://h/bad.fbx", "http://h/c.fbx"]).length = 3) ∧
    (∀ n i j, j < 3 →
      (linesFor (fun v => v == "http://h/bad.fbx") "Assets/ImportedAssets" n i
        ["http://h/a.fbx", "http://h/bad.fbx", "http://h/c.fbx"]).getD j "" =
      lineFor (fun v => v == "http://h/bad.fbx") "Assets/ImportedAssets" n (i + j)
        ((["http://h/a.fbx", "http://h/bad.fbx", "http://h/c.fbx"] :
          List String).getD j "")) :=
  c6_batch_lines (fun v => v == "http://h/bad.fbx")
    ["http://h/a.fbx", "http://h/bad.fbx", "http://h/c.fbx"] emptySt
    "Assets/ImportedAssets" false (by decide) (by decide)

/-! ## Claim C10: color validation in set_material -/

theorem validateColor_error :
    ∀ (cs : List PyVal) (i : Nat),
      (∃ v ∈ cs, isNumberPy v = false ∨ numVal v < 0 ∨ 1 < numVal v) →
      ∃ m, validateColor cs i = some m ∧ pyStartsWith m "Error" = true
  | [], _, h => absurd h (by simp)
  | v :: rest, i, h => by
      by_cases h1 : isNumberPy v = false
      · refine ⟨"Error: Color component at index " ++ toString i ++
          " is not a number.", ?_, ?_⟩
        · show validateColor (v :: rest) i = _
          unfold validateColor
          rw [if_pos (by rw [h1]; rfl)]
        · exact pyStartsWith_stretch " is not a number."
            (pyStartsWith_stretch (toString i) (by decide))
      · have h1t : isNumberPy v = true := by
          revert h1
          cases isNumberPy v <;> simp
        by_cases h2 : (numVal v < 0 || numVal v > 1) = true
        · refine ⟨"Error: Color " ++ channelName i ++
            " value must be in the range 0.0-1.0, but got " ++ pyRepr v ++ ".",
            ?_, ?_⟩
          · show validateColor (v :: rest) i = _
            unfold validateColor
            rw [if_neg (by rw [h1t]; simp), if_pos h2]
          · exact pyStartsWith_stretch "."
              (pyStartsWith_stretch (pyRepr v)
                (pyStartsWith_stretch " value must be in the range 0.0-1.0, but got "
                  (pyStartsWith_stretch (channelName i) (by decide))))
        · rcases h with ⟨w, hw, hbad⟩
          rcases List.mem_cons.mp hw with rfl | hw2
          · exfalso
            simp only [Bool.or_eq_true, decide_eq_true_eq, not_or] at h2
            rcases hbad with hb | hb | hb
            · exact absurd hb h1
            · exact absurd hb h2.1
            · exact absurd hb h2.2
          · rcases validateColor_error rest (i + 1) ⟨w, hw2, hbad⟩ with ⟨m, hm, hsw⟩
            refine ⟨m, ?_, hsw⟩
            show validateColor (v :: rest) i = some m
            unfold validateColor
            rw [if_neg (by rw [h1t]; simp), if_neg (by simpa using h2)]
            exact hm

/-- Claim C10, amended: when the target object is found and a non-empty
color list is provided whose length is neither 3 nor 4, or which holds a
component that is not a number or lies outside 0.0-1.0, set_material
returns an error message (prefixed with Error) and never sends the
SET_MATERIAL command — while the object lookup has already been issued,
and the material listing too whenever a material name was given. The
empty color list is excluded: Python truthiness makes the code skip the
validation entirely there (see the counterexample). -/
theorem c10_amended (env : Env) (object_name : String)
    (material_name : Option String) (cs : List PyVal) (cif : Bool)
    (objs : List String)
    (hc : env.connOk = true)
    (hfind : env.findObjects object_name = Except.ok objs)
    (hobjs : objs ≠ [])
    (hgate : matNameTruthy material_name = true →
      ∃ as, env.assetList (matListParams (material_name.getD "")) = Except.ok as ∧
        (as.any (fun a => a.name == material_name.getD "") || cif) = true)
    (hcs : cs ≠ [])
    (hbad : ¬(cs.length = 3 ∨ cs.length = 4) ∨
      ∃ v ∈ cs, isNumberPy v = false ∨ numVal v < 0 ∨ 1 < numVal v) :
    pyStartsWith (set_material env object_name material_name (some cs) cif).1
      "Error" = true ∧
    sentCmd (set_material env object_name material_name (some cs) cif).2
      "SET_MATERIAL" = false ∧
    sentCmd (set_material env object_name material_name (some cs) cif).2
      "FIND_OBJECTS_BY_NAME" = true ∧
    (matNameTruthy material_name = true →
      sentCmd (set_material env object_name material_name (some cs) cif).2
        "GET_ASSET_LIST" = true) := by
  have hoe : objs.isEmpty = false := by
    cases objs with
    | nil => exact absurd rfl hobjs
    | cons a l => rfl
  have hct : colorTruthy (some cs) = true := by
    cases cs with
    | nil => exact absurd rfl hcs
    | cons a l => rfl
  have hcolor : ∃ m, (if !(cs.length == 3 || cs.length == 4) then
      some (colorLenMsg cs.length) else validateColor cs 0) = some m ∧
      pyStartsWith m "Error" = true := by
    by_cases hlen : (cs.length == 3 || cs.length == 4) = true
    · have hbad2 : ∃ v ∈ cs, isNumberPy v = false ∨ numVal v < 0 ∨ 1 < numVal v := by
        rcases hbad with hb | hb
        · exfalso
          simp only [Bool.or_eq_true, beq_iff_eq] at hlen
          exact hb hlen
        · exact hb
      rcases validateColor_error cs 0 hbad2 with ⟨m, hm, hsw⟩
      refine ⟨m, ?_, hsw⟩
      rw [if_neg (by rw [hlen]; simp)]
      exact hm
    · refine ⟨colorLenMsg cs.length, ?_, ?_⟩
      · rw [if_pos (by simpa using hlen)]
      · exact pyStartsWith_stretch "."
          (pyStartsWith_stretch (toString cs.length) (by decide))
  rcases hcolor with ⟨m, hm, hsw⟩
  by_cases hmat : matNameTruthy material_name = true
  · rcases hgate hmat with ⟨as, hA, hOr⟩
    have hgf : (!as.any (fun a => a.name == material_name.getD "") && !cif)
        = false := by
      rw [← Bool.not_or, hOr]
      rfl
    have hrun : setMaterialRun env object_name material_name (some cs) cif =
        (Except.ok m,
          [Eff.send "FIND_OBJECTS_BY_NAME" [("name", PyVal.str object_name)]] ++
          [Eff.send "GET_ASSET_LIST" (matListParams (material_name.getD ""))]) := by
      unfold setMaterialRun
      rw [hc]
      rw [if_neg (by simp : ¬((!true) = true))]
      rw [hfind]
      dsimp only
      rw [if_neg (by rw [hoe]; simp)]
      rw [hmat]
      rw [if_pos rfl]
      rw [hA]
      dsimp only
      rw [hgf]
      rw [if_neg (by simp)]
      dsimp only
      rw [hct]
      rw [if_pos rfl]
      simp only [Option.getD_some]
      rw [hm]
    unfold set_material
    rw [hrun]
    refine ⟨hsw, ?_, ?_, fun _ => ?_⟩ <;> rfl
  · have hrun : setMaterialRun env object_name material_name (some cs) cif =
        (Except.ok m,
          [Eff.send "FIND_OBJECTS_BY_NAME" [("name", PyVal.str object_name)]] ++
          []) := by
      unfold setMaterialRun
      rw [hc]
      rw [if_neg (by simp : ¬((!true) = true))]
      rw [hfind]
      dsimp only
      rw [if_neg (by rw [hoe]; simp)]
      rw [show matNameTruthy material_name = false from by
        revert hmat; cases matNameTruthy material_name <;> simp]
      rw [if_neg (by simp)]
      dsimp only
      rw [hct]
      rw [if_pos rfl]
      simp only [Option.getD_some]
      rw [hm]
    unfold set_material
    rw [hrun]
    exact ⟨hsw, rfl, rfl, fun hm2 => absurd hm2 hmat⟩

/-- Witness for c10_amended: color [2, 0, 0] has an out-of-range R. -/
theorem c10_amended_witness :
    pyStartsWith (set_material baseEnv "Cube" (some "Mat")
      (some [PyVal.num 2, PyVal.num 0, PyVal.num 0]) true).1 "Error" = true ∧
    sentCmd (set_material baseEnv "Cube" (some "Mat")
      (some [PyVal.num 2, PyVal.num 0, PyVal.num 0]) true).2 "SET_MATERIAL" = false ∧
    sentCmd (set_material baseEnv "Cube" (some "Mat")
      (some [PyVal.num 2, PyVal.num 0, PyVal.num 0]) true).2
      "FIND_OBJECTS_BY_NAME" = true ∧
    (matNameTruthy (some "Mat") = true →
      sentCmd (set_material baseEnv "Cube" (some "Mat")
        (some [PyVal.num 2, PyVal.num 0, PyVal.num 0]) true).2
        "GET_ASSET_LIST" = true) :=
  c10_amended baseEnv "Cube" (some "Mat") [PyVal.num 2, PyVal.num 0, PyVal.num 0]
    true ["Cube"] rfl rfl (by decide) (fun _ => ⟨[], rfl, rfl⟩)
    (List.cons_ne_nil _ _)
    (Or.inr ⟨PyVal.num 2, List.mem_cons_self _ _,
      Or.inr (Or.inr (by norm_num [numVal]))⟩)
